import Mathlib

/-!
Shallow embedding of the turn-based simulation scheduler and queue manager
of the MindNest chat simulator (src/chat_simulator), together with the
persona memory consolidation policy.

Sources embedded:
- src/chat_simulator/core/queue_manager.py      (MessageQueue)
- src/chat_simulator/models/persona.py          (PersonaMemory.consolidate)
- src/chat_simulator/models/message.py          (Message, MessageStatus)
- src/chat_simulator/models/simulation.py       (SimulationStatus)
- src/chat_simulator/services/simulation_service.py
  (start_simulation, stop_simulation, _db_to_model, _run_simulation)

Python `float` importance scores are modelled as rationals (the code only
compares them against the literal 0.7, which is order-faithful on ℚ),
`datetime.utcnow()` timestamps as an abstract `Nat` clock value supplied by
the caller, and the async database round-trips as explicit state passing.
-/

namespace MindNest

/-- `models.message.MessageStatus`: pending / processing / completed / failed. -/
inductive MessageStatus where
  | pending
  | processing
  | completed
  | failed
deriving DecidableEq, Repr

/-- `models.message.MessageRole`: user / persona / system. -/
inductive MessageRole where
  | user
  | persona
  | system
deriving DecidableEq, Repr

/-- `models.message.Message` (the fields the queue and scheduler touch). -/
structure Message where
  id : String
  session_id : String
  content : String
  role : MessageRole
  persona_id : Option String
  status : MessageStatus
  timestamp : Nat
deriving DecidableEq, Repr

/-- Python dict lookup on an association list keyed by message id
(`message_id in self.processing` / `self.processing[message_id]`). -/
def lookupProc : List (String × Message) → String → Option Message
  | [], _ => none
  | (k, v) :: tl, id => if k = id then some v else lookupProc tl id

/-- Python `dict.pop(message_id)`: remove the entry for a key. -/
def eraseProc : List (String × Message) → String → List (String × Message)
  | [], _ => []
  | (k, v) :: tl, id => if k = id then tl else (k, v) :: eraseProc tl id

/-- Python `self.processing[message.id] = message`: insert or replace. -/
def insertProc (ps : List (String × Message)) (id : String) (m : Message) :
    List (String × Message) :=
  if (lookupProc ps id).isSome then
    (eraseProc ps id) ++ [(id, m)]
  else
    ps ++ [(id, m)]

/-- `core.queue_manager.MessageQueue`: a pending deque with `maxlen = max_size`,
an in-flight dict `processing` keyed by message id, and a `completed` list. -/
structure MessageQueue where
  max_size : Nat
  queue : List Message
  processing : List (String × Message)
  completed : List Message
deriving DecidableEq, Repr

namespace MessageQueue

/-- `MessageQueue(max_size)`: fresh empty queue. -/
def mkEmpty (max_size : Nat) : MessageQueue :=
  { max_size := max_size, queue := [], processing := [], completed := [] }

/-- `enqueue(message)`: `self.queue.append(message)` on a deque with
`maxlen = max_size` — when the deque is full the oldest (leftmost) entry is
silently discarded.  `(q ++ [m]).drop (|q| + 1 - max_size)` drops nothing
when there is room and exactly the oldest entries otherwise. -/
def enqueue (q : MessageQueue) (m : Message) : MessageQueue :=
  { q with queue := (q.queue ++ [m]).drop (q.queue.length + 1 - q.max_size) }

/-- `dequeue()`: pop the oldest pending message, set its status to
`processing`, record it in the in-flight dict, and return it. -/
def dequeue (q : MessageQueue) : Option Message × MessageQueue :=
  match q.queue with
  | [] => (none, q)
  | m :: rest =>
    let m' := { m with status := MessageStatus.processing }
    (some m', { q with queue := rest, processing := insertProc q.processing m'.id m' })

/-- `mark_completed(message_id)`: if the id is in flight, pop it, set the
message status to `completed`, and append it to the completed list. -/
def mark_completed (q : MessageQueue) (message_id : String) : MessageQueue :=
  match lookupProc q.processing message_id with
  | none => q
  | some m =>
    let m' := { m with status := MessageStatus.completed }
    { q with processing := eraseProc q.processing message_id,
             completed := q.completed ++ [m'] }

/-- `mark_failed(message_id)`: if the id is in flight, pop it and set the
message status to `failed`.  The source does NOT append it to the completed
list; the mutated object merely escapes the queue, so the model returns it
as the second component. -/
def mark_failed (q : MessageQueue) (message_id : String) :
    MessageQueue × Option Message :=
  match lookupProc q.processing message_id with
  | none => (q, none)
  | some m =>
    let m' := { m with status := MessageStatus.failed }
    ({ q with processing := eraseProc q.processing message_id }, some m')

/-- `add_completed_message(message)`: set status to `completed` and append
directly to the completed list, bypassing pending/processing. -/
def add_completed_message (q : MessageQueue) (m : Message) : MessageQueue :=
  { q with completed := q.completed ++ [{ m with status := MessageStatus.completed }] }

end MessageQueue

/-- The mutating operations of `MessageQueue`, for quantifying over
arbitrary operation sequences. -/
inductive QOp where
  | enq (m : Message)
  | deq
  | markCompleted (id : String)
  | markFailed (id : String)
  | addCompleted (m : Message)
deriving Repr

/-- Apply one queue operation. -/
def applyQOp (q : MessageQueue) : QOp → MessageQueue
  | QOp.enq m => q.enqueue m
  | QOp.deq => (q.dequeue).2
  | QOp.markCompleted id => q.mark_completed id
  | QOp.markFailed id => (q.mark_failed id).1
  | QOp.addCompleted m => q.add_completed_message m

/-- `models.persona.Memory`: a timestamped, importance-scored entry.
Importance is a Python float in [0,1]; modelled as ℚ. -/
structure Memory where
  content : String
  timestamp : Nat
  importance : ℚ
deriving DecidableEq, Repr

/-- `models.persona.PersonaMemory`: short-term and long-term entry lists. -/
structure PersonaMemory where
  short_term : List Memory
  long_term : List Memory
deriving DecidableEq, Repr

/-- Python slice `l[-n:]` for `n ≥ 0`: the last `n` entries, except that
`l[-0:]` is the whole list. -/
def pySliceLastN (l : List Memory) (n : Nat) : List Memory :=
  if n = 0 then l else l.drop (l.length - n)

/-- The consolidation qualification test `m.importance >= 0.7`. -/
def isImportant (m : Memory) : Bool := (7 : ℚ)/10 ≤ m.importance

namespace PersonaMemory

/-- `PersonaMemory.consolidate(short_term_limit=10)`: when short-term length
exceeds the limit, extend long-term with every short-term entry of
importance ≥ 0.7 (a copy — the entries are not removed from short-term by
the promotion), then truncate short-term to its most recent `limit`
entries (`self.short_term[-short_term_limit:]`). -/
def consolidate (pm : PersonaMemory) (short_term_limit : Nat) : PersonaMemory :=
  if pm.short_term.length > short_term_limit then
    let important := pm.short_term.filter isImportant
    { short_term := pySliceLastN pm.short_term short_term_limit,
      long_term := pm.long_term ++ important }
  else pm

end PersonaMemory

/-- `models.simulation.SimulationStatus`. -/
inductive SimulationStatus where
  | created
  | running
  | paused
  | completed
  | failed
deriving DecidableEq, Repr

/-- The durable simulation row (`database.models.Simulation`), restricted to
the fields `SimulationService` reads and writes.  `persona_ids` is stored
as JSON in the database and parsed back; the round-trip is the identity on
well-formed data, so it is modelled as the list itself. -/
structure DBSimulation where
  id : String
  persona_ids : List String
  status : SimulationStatus
  max_turns : Option Nat
  message_count : Nat
  started_at : Option Nat
  completed_at : Option Nat
deriving DecidableEq, Repr

/-- Python `v or d` on an `Optional[int]`: `None` and `0` are falsy. -/
def pyOrNat (v : Option Nat) (d : Nat) : Nat :=
  match v with
  | some n => if n ≠ 0 then n else d
  | none => d

/-- The in-memory pydantic model produced by `SimulationService._db_to_model`,
restricted to the fields `_run_simulation` uses.  Note `_db_to_model` sets
`max_turns = db_sim.max_turns or 20`, so the model's `max_turns` is always
`some` of a positive number. -/
structure SimulationModel where
  id : String
  persona_ids : List String
  max_turns : Option Nat
  status : SimulationStatus
  message_count : Nat
deriving DecidableEq, Repr

/-- `SimulationService._db_to_model`, restricted to the modelled fields. -/
def db_to_model (row : DBSimulation) : SimulationModel :=
  { id := row.id
    persona_ids := row.persona_ids
    max_turns := some (pyOrNat row.max_turns 20)
    status := row.status
    message_count := row.message_count }

/-- `SimulationService.start_simulation`: the argument is the row returned by
the `SELECT` (none when the session does not exist), `now` the value of
`datetime.utcnow()`.  Returns the method's boolean result and the committed
row.  The method refuses only when the row is missing or its status is
`running`; every other status is overwritten to `running`. -/
def start_simulation (row : Option DBSimulation) (now : Nat) :
    Bool × Option DBSimulation :=
  match row with
  | none => (false, none)
  | some s =>
    if s.status = SimulationStatus.running then (false, some s)
    else (true, some { s with status := SimulationStatus.running,
                              started_at := some now })

/-- `SimulationService.pause_simulation`: pause only a `running` session. -/
def pause_simulation (row : Option DBSimulation) :
    Bool × Option DBSimulation :=
  match row with
  | none => (false, none)
  | some s =>
    if s.status = SimulationStatus.running then
      (true, some { s with status := SimulationStatus.paused })
    else (false, some s)

/-- `SimulationService.stop_simulation`: when the row exists, unconditionally
set status to `completed` and stamp `completed_at`, returning `True`;
otherwise return `False` with no change. -/
def stop_simulation (row : Option DBSimulation) (now : Nat) :
    Bool × Option DBSimulation :=
  match row with
  | none => (false, none)
  | some s =>
    (true, some { s with status := SimulationStatus.completed,
                         completed_at := some now })

/-- `_run_simulation`'s effective turn bound: the configured value when
truthy, otherwise 20 for multi-persona sessions and 1 for a lone persona. -/
def actual_max_turns (cfg_max : Option Nat) (n_personas : Nat) : Nat :=
  match cfg_max with
  | some n => if n ≠ 0 then n else if n_personas > 1 then 20 else 1
  | none => if n_personas > 1 then 20 else 1

/-- Side effects of one simulation turn, in program order. -/
inductive Event where
  | persist (id : String)
  | enqueueCompleted (id : String)
  | bumpCount
  | memAppend (pid : String)
deriving DecidableEq, Repr

/-- Environment of a `_run_simulation` task: persona lookup
(`none` = missing persona, `some b` = found with `is_active = b`),
the LLM generation outcome per turn index (`none` = the call raised),
external writes to the durable session status observed at the top of a
turn, and the uuid/clock values of a created message. -/
structure RunEnv where
  personaActive : String → Option Bool
  gen : Nat → Option String
  ext : Nat → Option SimulationStatus
  msgid : Nat → String
  msgTime : Nat → Nat

/-- State threaded through the `_run_simulation` loop: the durable session
status, the task's in-memory `simulation.status`, the messages created in
the Message Store by this run (in creation order), the queue manager's
completed-list additions, both message counters, and the event trace. -/
structure RunState where
  db_status : SimulationStatus
  mem_status : SimulationStatus
  store : List Message
  queue_completed : List Message
  db_message_count : Nat
  mem_message_count : Nat
  trace : List Event
deriving DecidableEq, Repr

/-- Initial task state, from the model fetched at the top of
`_run_simulation`. -/
def initState (sim : SimulationModel) : RunState :=
  { db_status := sim.status
    mem_status := sim.status
    store := []
    queue_completed := []
    db_message_count := sim.message_count
    mem_message_count := sim.message_count
    trace := [] }

/-- The message a successful turn creates: `create_message` persists it with
`role='persona'`, `status='completed'`, authored by the selected persona. -/
def mkTurnMessage (env : RunEnv) (sim : SimulationModel) (turn : Nat)
    (persona_id content : String) : Message :=
  { id := env.msgid turn
    session_id := sim.id
    content := content
    role := MessageRole.persona
    persona_id := some persona_id
    status := MessageStatus.completed
    timestamp := env.msgTime turn }

/-- Top-of-loop status re-read: any external write to the durable status
becomes visible in the loop's view of the row. -/
def observeStatus (env : RunEnv) (turn : Nat) (st : RunState) : RunState :=
  { st with db_status := (env.ext turn).getD st.db_status }

/-- Round-robin selection: `simulation.persona_ids[turn % len(...)]`. -/
def selectedPersona (sim : SimulationModel) (turn : Nat) : String :=
  sim.persona_ids.getD (turn % sim.persona_ids.length) ""

/-- The generation attempt of one turn.  On success (`gen turn = some
content`): persist the message via `create_message`, mirror it into the
queue manager via `add_completed_message`, bump the durable and in-memory
message counters, and append a short-term memory entry to the acting
persona.  On failure (`llm_service` raised): log only. -/
def turnBody (env : RunEnv) (sim : SimulationModel) (turn : Nat)
    (st : RunState) : RunState :=
  match env.gen turn with
  | none => st
  | some content =>
    let m := mkTurnMessage env sim turn (selectedPersona sim turn) content
    { st with
        store := st.store ++ [m]
        queue_completed := st.queue_completed ++ [m]
        db_message_count := st.db_message_count + 1
        mem_message_count := st.mem_message_count + 1
        trace := st.trace ++
          [Event.persist m.id, Event.enqueueCompleted m.id,
           Event.bumpCount, Event.memAppend (selectedPersona sim turn)] }

/-- The single-persona break: write `paused` to the in-memory model and to
the durable row, then exit the loop. -/
def pauseState (st : RunState) : RunState :=
  { st with mem_status := SimulationStatus.paused,
            db_status := SimulationStatus.paused }

/-- The `while turn < max_turns` loop of `_run_simulation`.  `rem` is
`max_turns - turn` (the loop measure), `turn` the Python loop variable.
Each iteration re-reads the durable status and stops unless it is
`running`; selects the persona `turn % len(persona_ids)`; skips a missing
or inactive persona by `turn += 1; continue`; otherwise runs `turnBody`.
After `turn += 1`, a single-persona session pauses and breaks.  The
inter-turn `asyncio.sleep` has no state effect and is not modelled. -/
def runTurns (env : RunEnv) (sim : SimulationModel) (single : Bool) :
    Nat → Nat → RunState → RunState
  | 0, _, st => st
  | rem+1, turn, st =>
    if (observeStatus env turn st).db_status ≠ SimulationStatus.running then
      observeStatus env turn st
    else if (env.personaActive (selectedPersona sim turn)).getD false = false then
      runTurns env sim single rem (turn+1) (observeStatus env turn st)
    else if single then
      pauseState (turnBody env sim turn (observeStatus env turn st))
    else
      runTurns env sim single rem (turn+1)
        (turnBody env sim turn (observeStatus env turn st))

/-- The `finally` clause of `_run_simulation`: when the task's in-memory
`simulation.status` is still `running`, write `completed` (with
`completed_at`) to both the model and the durable row. -/
def finalizeRun (st : RunState) : RunState :=
  if st.mem_status = SimulationStatus.running then
    { st with mem_status := SimulationStatus.completed,
              db_status := SimulationStatus.completed }
  else st

/-- `SimulationService._run_simulation`, as a function of the fetched model
and the environment of the run: `single_persona_mode` is
`len(simulation.persona_ids) == 1`, the loop bound is `actual_max_turns`,
and the `finally` clause runs on loop exit. -/
def run_simulation (env : RunEnv) (sim : SimulationModel) : RunState :=
  finalizeRun (runTurns env sim (decide (sim.persona_ids.length = 1))
    (actual_max_turns sim.max_turns sim.persona_ids.length) 0 (initState sim))

/-! ## Concrete instances used by counterexamples and witnesses -/

/-- A message sitting in the in-flight mapping of a queue. -/
def msgEx : Message :=
  { id := "m1", session_id := "s", content := "hi", role := MessageRole.persona,
    persona_id := some "A", status := MessageStatus.processing, timestamp := 0 }

/-- A queue with exactly one in-flight message and an empty completed list. -/
def qInFlightEx : MessageQueue :=
  { max_size := 1000, queue := [], processing := [("m1", msgEx)], completed := [] }

/-- A durable session row whose status is `completed`. -/
def sessCompletedEx : DBSimulation :=
  { id := "sim1", persona_ids := ["A"], status := SimulationStatus.completed,
    max_turns := none, message_count := 3, started_at := some 1,
    completed_at := some 2 }

/-- A durable session row whose status is `paused`. -/
def sessPausedEx : DBSimulation :=
  { id := "sim2", persona_ids := ["A", "B"], status := SimulationStatus.paused,
    max_turns := some 4, message_count := 1, started_at := some 1,
    completed_at := none }

/-! ## C9: stop_simulation -/

/-- C9: for every session present in the durable store, `stop_simulation`
returns `True` and sets the durable status to `completed` with a
`completed_at` timestamp, regardless of the current status; it returns
`False`, changing nothing, exactly when the session does not exist. -/
theorem C9_stop_simulation_unconditional :
    (∀ (s : DBSimulation) (now : Nat),
      stop_simulation (some s) now =
        (true, some { s with status := SimulationStatus.completed,
                             completed_at := some now }))
    ∧ (∀ now : Nat, stop_simulation none now = (false, none)) :=
  ⟨fun _ _ => rfl, fun _ => rfl⟩

/-! ## C1: start_simulation -/

/-- C1 counterexample: the claim says `start_simulation` returns `False` for
a session whose status is `completed`, but on the concrete completed
session `sessCompletedEx` the code returns `True` (only `running` is
rejected). -/
theorem C1_counterexample :
    ¬ ((start_simulation (some sessCompletedEx) 5).1 = false) := by
  decide

/-- C1 (amended): `start_simulation` succeeds — returning `True` and setting
the durable status to `running` with a `started_at` timestamp — for every
existing session whose status is not `running` (`created`, `paused`,
`completed`, or `failed` alike); it returns `False` exactly for a `running`
session (whose row it leaves unchanged) or a missing session. -/
theorem C1_start_rejects_only_running (s : DBSimulation) (now : Nat) :
    ((start_simulation (some s) now).1 = true ↔
      s.status ≠ SimulationStatus.running)
    ∧ (s.status = SimulationStatus.running →
        start_simulation (some s) now = (false, some s))
    ∧ (s.status ≠ SimulationStatus.running →
        start_simulation (some s) now =
          (true, some { s with status := SimulationStatus.running,
                               started_at := some now }))
    ∧ (start_simulation none now = (false, none)) := by
  refine ⟨?_, fun h => by simp [start_simulation, h],
    fun h => by simp [start_simulation, h], rfl⟩
  constructor
  · intro htrue hs
    simp [start_simulation, hs] at htrue
  · intro hs
    simp [start_simulation, hs]

/-- C1 witness: on the concrete paused session, starting succeeds and writes
`running` with the timestamp. -/
theorem C1_start_witness :
    sessPausedEx.status ≠ SimulationStatus.running ∧
    start_simulation (some sessPausedEx) 7 =
      (true, some { sessPausedEx with status := SimulationStatus.running,
                                      started_at := some 7 }) :=
  ⟨by decide, (C1_start_rejects_only_running sessPausedEx 7).2.2.1 (by decide)⟩

/-! ## C2: mark_completed / mark_failed -/

/-- C2 counterexample: the claim says `mark_failed` appends the failed
message to the completed list, but on the concrete queue `qInFlightEx`
(one in-flight message, empty completed list) the completed list is still
empty after `mark_failed`. -/
theorem C2_counterexample :
    ¬ ((qInFlightEx.mark_failed "m1").1.completed =
        qInFlightEx.completed ++ [{ msgEx with status := MessageStatus.failed }]) := by
  decide

/-- C2 (amended): for every message id in the in-flight mapping,
`mark_completed` removes the entry, sets the message's status to
`completed`, and appends it to the completed list; `mark_failed` removes
the entry and sets the message's status to `failed` but does NOT append it
to the completed list (the failed message is no longer referenced by the
queue).  Neither touches the pending queue. -/
theorem C2_mark_semantics (q : MessageQueue) (id : String) (m : Message)
    (h : lookupProc q.processing id = some m) :
    (q.mark_completed id).processing = eraseProc q.processing id
    ∧ (q.mark_completed id).completed =
        q.completed ++ [{ m with status := MessageStatus.completed }]
    ∧ (q.mark_completed id).queue = q.queue
    ∧ (q.mark_failed id).1.processing = eraseProc q.processing id
    ∧ (q.mark_failed id).1.completed = q.completed
    ∧ (q.mark_failed id).1.queue = q.queue
    ∧ (q.mark_failed id).2 = some { m with status := MessageStatus.failed } := by
  refine ⟨?_, ?_, ?_, ?_, ?_, ?_, ?_⟩ <;>
    simp [MessageQueue.mark_completed, MessageQueue.mark_failed, h]

/-- C2 witness: on the concrete queue, `mark_completed` empties the
in-flight mapping and appends the completed message. -/
theorem C2_mark_witness :
    lookupProc qInFlightEx.processing "m1" = some msgEx ∧
    (qInFlightEx.mark_completed "m1").completed =
      qInFlightEx.completed ++ [{ msgEx with status := MessageStatus.completed }] :=
  ⟨by decide, (C2_mark_semantics qInFlightEx "m1" msgEx (by decide)).2.1⟩

/-! ## C10: mark_completed / mark_failed on an unknown id -/

/-- C10: for every message id not in the in-flight mapping, `mark_completed`
and `mark_failed` are silent no-ops: the whole queue state is unchanged
and no message is produced. -/
theorem C10_mark_unknown_noop (q : MessageQueue) (id : String)
    (h : lookupProc q.processing id = none) :
    q.mark_completed id = q ∧ q.mark_failed id = (q, none) := by
  constructor <;> simp [MessageQueue.mark_completed, MessageQueue.mark_failed, h]

/-- C10 witness: marking an id that was never dequeued leaves the concrete
queue untouched. -/
theorem C10_mark_unknown_witness :
    lookupProc qInFlightEx.processing "nope" = none ∧
    qInFlightEx.mark_completed "nope" = qInFlightEx ∧
    qInFlightEx.mark_failed "nope" = (qInFlightEx, none) :=
  ⟨by decide, (C10_mark_unknown_noop qInFlightEx "nope" (by decide)).1,
    (C10_mark_unknown_noop qInFlightEx "nope" (by decide)).2⟩

/-! ## C5: memory consolidation -/

/-- A below-threshold short-term memory entry. -/
def memLow (i : Nat) : Memory := { content := "c", timestamp := i, importance := 1/2 }

/-- A qualifying entry (importance 0.9). -/
def memHiA : Memory := { content := "a", timestamp := 100, importance := 9/10 }

/-- A qualifying entry exactly at the threshold (importance 0.7). -/
def memHiB : Memory := { content := "b", timestamp := 101, importance := 7/10 }

/-- Eleven short-term entries of which exactly two qualify. -/
def pmEx : PersonaMemory :=
  { short_term := [memLow 0, memHiA, memLow 2, memLow 3, memLow 4, memLow 5,
                   memLow 6, memLow 7, memHiB, memLow 9, memLow 10],
    long_term := [] }

/-- C5: for a memory with 11 short-term entries and limit 10 whose
qualifying (importance ≥ 0.7) entries are exactly `[a, b]`, one
`consolidate` call keeps exactly the most recent 10 short-term entries in
order, appends exactly `[a, b]` at the end of long-term (copies drawn from
short-term, which the promotion itself does not shrink), and `consolidate`
is a no-op whenever short-term length does not exceed the limit. -/
theorem C5_consolidate_policy (pm : PersonaMemory) (a b : Memory)
    (h1 : pm.short_term.length = 11)
    (h2 : pm.short_term.filter isImportant = [a, b]) :
    (pm.consolidate 10).short_term = pm.short_term.drop 1
    ∧ (pm.consolidate 10).short_term.length = 10
    ∧ (pm.consolidate 10).long_term = pm.long_term ++ [a, b]
    ∧ (∀ m, m ∈ (pm.consolidate 10).long_term.drop pm.long_term.length →
        m ∈ pm.short_term)
    ∧ (∀ qm : PersonaMemory, qm.short_term.length ≤ 10 →
        qm.consolidate 10 = qm) := by
  have hc : pm.consolidate 10 =
      { short_term := pm.short_term.drop 1,
        long_term := pm.long_term ++ [a, b] } := by
    unfold PersonaMemory.consolidate pySliceLastN
    rw [if_pos (by omega : pm.short_term.length > 10)]
    simp [h1, h2]
  refine ⟨by rw [hc], ?_, by rw [hc], ?_, ?_⟩
  · rw [hc]
    simp [h1]
  · rw [hc]
    intro m hm
    simp only [List.drop_left] at hm
    have : m ∈ pm.short_term.filter isImportant := by rw [h2]; exact hm
    exact List.mem_of_mem_filter this
  · intro qm hle
    unfold PersonaMemory.consolidate
    rw [if_neg (by omega)]

/-- Helper: the qualifying entries of the concrete 11-entry memory are
exactly `memHiA` and `memHiB`. -/
theorem pmEx_filter : pmEx.short_term.filter isImportant = [memHiA, memHiB] := by
  norm_num [pmEx, isImportant, memLow, memHiA, memHiB, List.filter]

/-- C5 witness: the concrete 11-entry memory with qualifying entries
`memHiA` and `memHiB`. -/
theorem C5_consolidate_witness :
    pmEx.short_term.length = 11 ∧
    pmEx.short_term.filter isImportant = [memHiA, memHiB] ∧
    (pmEx.consolidate 10).long_term = pmEx.long_term ++ [memHiA, memHiB] ∧
    (pmEx.consolidate 10).short_term.length = 10 :=
  ⟨by decide, pmEx_filter,
   (C5_consolidate_policy pmEx memHiA memHiB (by decide) pmEx_filter).2.2.1,
   (C5_consolidate_policy pmEx memHiA memHiB (by decide) pmEx_filter).2.1⟩

/-! ## C6: queue capacity bound and ring-buffer eviction -/

/-- Helper: an `enqueue` never leaves more than `max_size` pending
entries. -/
theorem enqueue_queue_length_le (q : MessageQueue) (m : Message) :
    (q.enqueue m).queue.length ≤ q.max_size := by
  simp only [MessageQueue.enqueue, List.length_drop, List.length_append,
    List.length_cons, List.length_nil]
  omega

/-- Helper: no queue operation changes the configured capacity. -/
theorem applyQOp_max_size (q : MessageQueue) (op : QOp) :
    (applyQOp q op).max_size = q.max_size := by
  cases op with
  | enq m => rfl
  | deq =>
    rcases hq : q.queue with _ | ⟨a, tl⟩ <;>
      simp [applyQOp, MessageQueue.dequeue, hq]
  | markCompleted id =>
    rcases hl : lookupProc q.processing id with _ | m <;>
      simp [applyQOp, MessageQueue.mark_completed, hl]
  | markFailed id =>
    rcases hl : lookupProc q.processing id with _ | m <;>
      simp [applyQOp, MessageQueue.mark_failed, hl]
  | addCompleted m => rfl

/-- Helper: every queue operation preserves the pending-length bound. -/
theorem applyQOp_queue_length_le (q : MessageQueue) (op : QOp)
    (h : q.queue.length ≤ q.max_size) :
    (applyQOp q op).queue.length ≤ q.max_size := by
  cases op with
  | enq m => exact enqueue_queue_length_le q m
  | deq =>
    rcases hq : q.queue with _ | ⟨a, tl⟩
    · simp [applyQOp, MessageQueue.dequeue, hq]
    · rw [hq] at h
      simp only [List.length_cons] at h
      simp [applyQOp, MessageQueue.dequeue, hq]
      omega
  | markCompleted id =>
    rcases hl : lookupProc q.processing id with _ | m <;>
      simp [applyQOp, MessageQueue.mark_completed, hl, h]
  | markFailed id =>
    rcases hl : lookupProc q.processing id with _ | m <;>
      simp [applyQOp, MessageQueue.mark_failed, hl, h]
  | addCompleted m =>
    simpa [applyQOp, MessageQueue.add_completed_message] using h

/-- Helper: capacity is constant along any operation sequence. -/
theorem foldl_applyQOp_max_size (ops : List QOp) (q : MessageQueue) :
    (ops.foldl applyQOp q).max_size = q.max_size := by
  induction ops generalizing q with
  | nil => rfl
  | cons op tl ih =>
    simp only [List.foldl_cons]
    rw [ih, applyQOp_max_size]

/-- Helper: the pending-length bound is an invariant of any operation
sequence. -/
theorem foldl_applyQOp_queue_length_le (ops : List QOp) (q : MessageQueue)
    (h : q.queue.length ≤ q.max_size) :
    (ops.foldl applyQOp q).queue.length ≤ q.max_size := by
  induction ops generalizing q with
  | nil => exact h
  | cons op tl ih =>
    simp only [List.foldl_cons]
    have := applyQOp_queue_length_le q op h
    rw [← applyQOp_max_size q op] at this
    have := ih (applyQOp q op) this
    rwa [applyQOp_max_size] at this

/-- C6: starting from a fresh queue of capacity 1000, no sequence of queue
operations makes the pending queue exceed 1000 entries; an `enqueue` on a
full queue silently evicts the oldest pending entry and appends the new
one (ring-buffer semantics); and every single operation preserves the
bound. -/
theorem C6_queue_capacity :
    (∀ ops : List QOp,
       (ops.foldl applyQOp (MessageQueue.mkEmpty 1000)).queue.length ≤ 1000)
    ∧ (∀ (q : MessageQueue) (m : Message),
        q.max_size = 1000 → q.queue.length = 1000 →
        (q.enqueue m).queue = q.queue.tail ++ [m])
    ∧ (∀ (q : MessageQueue) (op : QOp),
        q.max_size = 1000 → q.queue.length ≤ 1000 →
        (applyQOp q op).queue.length ≤ 1000) := by
  refine ⟨?_, ?_, ?_⟩
  · intro ops
    exact foldl_applyQOp_queue_length_le ops (MessageQueue.mkEmpty 1000)
      (by simp [MessageQueue.mkEmpty])
  · intro q m hmax hlen
    unfold MessageQueue.enqueue
    rw [hmax, hlen]
    rw [show (1000 + 1 - 1000 : Nat) = 1 from rfl]
    rw [List.drop_append_of_le_length (by omega), List.drop_one]
  · intro q op hmax hlen
    have := applyQOp_queue_length_le q op (by omega)
    omega

/-- A full queue: 1000 pending messages at capacity 1000. -/
def qFullEx : MessageQueue :=
  { max_size := 1000, queue := List.replicate 1000 msgEx, processing := [],
    completed := [] }

/-- Helper: the full queue really holds 1000 pending entries. -/
theorem qFullEx_len : qFullEx.queue.length = 1000 := by
  rw [show qFullEx.queue = List.replicate 1000 msgEx from rfl,
    List.length_replicate]

/-- C6 witness: a concrete full queue of 1000 pending messages evicts its
oldest entry on the next enqueue. -/
theorem C6_queue_capacity_witness :
    qFullEx.queue.length = 1000 ∧
    (qFullEx.enqueue msgEx).queue = qFullEx.queue.tail ++ [msgEx] :=
  ⟨qFullEx_len, C6_queue_capacity.2.1 qFullEx msgEx rfl qFullEx_len⟩

/-! ## C7: durable write before queue mirror -/

/-- Ids of `persist` events in a trace, accumulated onto `acc`. -/
def persistedIds : List Event → List String → List String
  | [], acc => acc
  | Event.persist id :: tl, acc => persistedIds tl (id :: acc)
  | _ :: tl, acc => persistedIds tl acc

/-- Every `enqueueCompleted` event in the trace names a message id that was
persisted strictly earlier (`ps` lists the ids persisted before the trace
started). -/
def enqueueAfterPersist : List String → List Event → Prop
  | _, [] => True
  | ps, Event.persist id :: tl => enqueueAfterPersist (id :: ps) tl
  | ps, Event.enqueueCompleted id :: tl => id ∈ ps ∧ enqueueAfterPersist ps tl
  | ps, _ :: tl => enqueueAfterPersist ps tl

/-- Helper: splitting `enqueueAfterPersist` across an append. -/
theorem enqueueAfterPersist_append (tr tr' : List Event) :
    ∀ ps, enqueueAfterPersist ps (tr ++ tr') ↔
      (enqueueAfterPersist ps tr ∧
        enqueueAfterPersist (persistedIds tr ps) tr') := by
  induction tr with
  | nil =>
    intro ps
    simp [enqueueAfterPersist, persistedIds]
  | cons e tl ih =>
    intro ps
    cases e <;> simp [enqueueAfterPersist, persistedIds, ih, and_assoc]

/-- Helper: a turn's generation attempt preserves the ordering property —
on success it appends the persist event immediately before the matching
enqueue event. -/
theorem turnBody_trace_eAP (env : RunEnv) (sim : SimulationModel)
    (turn : Nat) (st : RunState) (ps : List String)
    (h : enqueueAfterPersist ps st.trace) :
    enqueueAfterPersist ps (turnBody env sim turn st).trace := by
  unfold turnBody
  rcases hg : env.gen turn with _ | c <;> simp only [hg]
  · exact h
  · rw [enqueueAfterPersist_append]
    exact ⟨h, by simp [enqueueAfterPersist]⟩

/-- Helper: the simulation loop only ever extends the trace with
persist-then-enqueue blocks, so the ordering property is invariant. -/
theorem runTurns_trace_invariant (env : RunEnv) (sim : SimulationModel)
    (single : Bool) :
    ∀ (rem turn : Nat) (st : RunState) (ps : List String),
      enqueueAfterPersist ps st.trace →
      enqueueAfterPersist ps (runTurns env sim single rem turn st).trace := by
  intro rem
  induction rem with
  | zero =>
    intro turn st ps h
    exact h
  | succ rem ih =>
    intro turn st ps h
    rw [runTurns]
    by_cases h1 : (observeStatus env turn st).db_status ≠ SimulationStatus.running
    · rw [if_pos h1]
      exact h
    · rw [if_neg h1]
      by_cases h2 : (env.personaActive (selectedPersona sim turn)).getD false = false
      · rw [if_pos h2]
        exact ih _ _ _ h
      · rw [if_neg h2]
        by_cases h3 : single = true
        · rw [if_pos h3]
          exact turnBody_trace_eAP env sim turn _ ps h
        · rw [if_neg h3]
          exact ih _ _ _ (turnBody_trace_eAP env sim turn _ ps h)

/-- Helper: a turn's generation attempt appends the same message to the
queue mirror and to the store, preserving the containment. -/
theorem turnBody_queue_subset (env : RunEnv) (sim : SimulationModel)
    (turn : Nat) (st : RunState)
    (h : ∀ m, m ∈ st.queue_completed → m ∈ st.store) :
    ∀ m, m ∈ (turnBody env sim turn st).queue_completed →
      m ∈ (turnBody env sim turn st).store := by
  unfold turnBody
  rcases hg : env.gen turn with _ | c <;> simp only [hg]
  · exact h
  · intro m hm
    rcases List.mem_append.mp hm with hm | hm
    · exact List.mem_append.mpr (Or.inl (h m hm))
    · exact List.mem_append.mpr (Or.inr hm)

/-- Helper: every message mirrored into the queue manager by the loop was
also written to the message store. -/
theorem runTurns_queue_subset_store (env : RunEnv) (sim : SimulationModel)
    (single : Bool) :
    ∀ (rem turn : Nat) (st : RunState),
      (∀ m, m ∈ st.queue_completed → m ∈ st.store) →
      ∀ m, m ∈ (runTurns env sim single rem turn st).queue_completed →
        m ∈ (runTurns env sim single rem turn st).store := by
  intro rem
  induction rem with
  | zero =>
    intro turn st h
    exact h
  | succ rem ih =>
    intro turn st h
    rw [runTurns]
    by_cases h1 : (observeStatus env turn st).db_status ≠ SimulationStatus.running
    · rw [if_pos h1]
      exact h
    · rw [if_neg h1]
      by_cases h2 : (env.personaActive (selectedPersona sim turn)).getD false = false
      · rw [if_pos h2]
        exact ih _ _ h
      · rw [if_neg h2]
        by_cases h3 : single = true
        · rw [if_pos h3]
          exact turnBody_queue_subset env sim turn _ h
        · rw [if_neg h3]
          exact ih _ _ (turnBody_queue_subset env sim turn _ h)

/-- Helper: the `finally` clause only touches the status fields. -/
theorem finalizeRun_fields (st : RunState) :
    (finalizeRun st).trace = st.trace
    ∧ (finalizeRun st).store = st.store
    ∧ (finalizeRun st).queue_completed = st.queue_completed := by
  unfold finalizeRun
  split <;> exact ⟨rfl, rfl, rfl⟩

/-- C7: in every run of the simulation task, whatever the environment does,
every mirroring of a generated message into the Queue Manager
(`add_completed_message`) is strictly preceded in the event trace by the
durable write of that same message to the Message Store
(`create_message`); consequently every message visible in the queue mirror
is present in the durable store. -/
theorem C7_persist_before_enqueue (env : RunEnv) (sim : SimulationModel) :
    enqueueAfterPersist [] (run_simulation env sim).trace
    ∧ (∀ m, m ∈ (run_simulation env sim).queue_completed →
        m ∈ (run_simulation env sim).store) := by
  constructor
  · unfold run_simulation
    rw [(finalizeRun_fields _).1]
    exact runTurns_trace_invariant env sim _ _ _ _ [] trivial
  · unfold run_simulation
    intro m
    rw [(finalizeRun_fields _).2.1, (finalizeRun_fields _).2.2]
    refine runTurns_queue_subset_store env sim _ _ _ _ ?_ m
    intro m' hm'
    simp [initState] at hm'

/-! ## Shared loop lemmas for C3, C4, C8 -/

/-- Helper: the effective turn bound is always at least 1. -/
theorem actual_max_turns_pos (cfg_max : Option Nat) (n : Nat) :
    0 < actual_max_turns cfg_max n := by
  rcases cfg_max with _ | k <;> simp only [actual_max_turns] <;>
    split_ifs <;> omega

/-- Helper: a generation failure leaves the state untouched; a success
appends exactly one message to the store. -/
theorem turnBody_store (env : RunEnv) (sim : SimulationModel) (turn : Nat)
    (st : RunState) :
    (env.gen turn = none → turnBody env sim turn st = st)
    ∧ (∀ c, env.gen turn = some c →
        (turnBody env sim turn st).store =
          st.store ++ [mkTurnMessage env sim turn (selectedPersona sim turn) c]) := by
  constructor
  · intro hg
    unfold turnBody
    rw [hg]
  · intro c hg
    unfold turnBody
    rw [hg]

/-- Helper: the generation attempt never touches either status field. -/
theorem turnBody_status (env : RunEnv) (sim : SimulationModel) (turn : Nat)
    (st : RunState) :
    (turnBody env sim turn st).db_status = st.db_status
    ∧ (turnBody env sim turn st).mem_status = st.mem_status := by
  unfold turnBody
  rcases hg : env.gen turn with _ | c <;> simp [hg]

/-- Helper: with no external status write, the top-of-loop re-read changes
nothing. -/
theorem observeStatus_noext (env : RunEnv) (turn : Nat) (st : RunState)
    (h : env.ext turn = none) : observeStatus env turn st = st := by
  unfold observeStatus
  rw [h]
  rfl

/-- Helper: the round-robin selection picks a member of the persona list. -/
theorem selectedPersona_mem (sim : SimulationModel) (turn : Nat)
    (hlen : 0 < sim.persona_ids.length) :
    selectedPersona sim turn ∈ sim.persona_ids := by
  unfold selectedPersona
  have h : turn % sim.persona_ids.length < sim.persona_ids.length :=
    Nat.mod_lt _ hlen
  rw [List.getD_eq_getElem?_getD, List.getElem?_eq_getElem h, Option.getD_some]
  exact List.getElem_mem h

/-- Helper: one loop iteration of a single-persona session that observes
`running` and finds its persona active pauses and stops, whatever the
generation outcome. -/
theorem runTurns_single_step (env : RunEnv) (sim : SimulationModel)
    (k turn : Nat) (st : RunState)
    (hrun : (env.ext turn).getD st.db_status = SimulationStatus.running)
    (hact : ¬ ((env.personaActive (selectedPersona sim turn)).getD false = false)) :
    runTurns env sim true (k+1) turn st =
      pauseState (turnBody env sim turn (observeStatus env turn st)) := by
  rw [runTurns]
  rw [if_neg (by simp [observeStatus, hrun]), if_neg hact, if_pos rfl]

/-- Helper: a happy-path run — no external status writes, every selected
persona active, every generation successful — in multi-persona mode
produces one message per remaining turn, in round-robin order, and keeps
both status fields untouched. -/
theorem runTurns_all_success (env : RunEnv) (sim : SimulationModel)
    (c : Nat → String)
    (hext : ∀ t, env.ext t = none)
    (hact : ∀ p ∈ sim.persona_ids, env.personaActive p = some true)
    (hgen : ∀ t, env.gen t = some (c t))
    (hlen : 0 < sim.persona_ids.length) :
    ∀ (rem turn : Nat) (st : RunState),
      st.db_status = SimulationStatus.running →
      (runTurns env sim false rem turn st).store
          = st.store ++ (List.range' turn rem).map
              (fun t => mkTurnMessage env sim t (selectedPersona sim t) (c t))
        ∧ (runTurns env sim false rem turn st).db_status =
            SimulationStatus.running
        ∧ (runTurns env sim false rem turn st).mem_status = st.mem_status := by
  intro rem
  induction rem with
  | zero =>
    intro turn st hst
    exact ⟨by simp [runTurns], hst, rfl⟩
  | succ rem ih =>
    intro turn st hst
    have hobs := observeStatus_noext env turn st (hext turn)
    have hsel : env.personaActive (selectedPersona sim turn) = some true :=
      hact _ (selectedPersona_mem sim turn hlen)
    rw [runTurns]
    rw [if_neg (by rw [hobs, hst]; simp), if_neg (by rw [hsel]; simp),
      if_neg (by simp), hobs]
    obtain ⟨ihs, ihdb, ihmem⟩ := ih (turn+1) (turnBody env sim turn st)
      (by rw [(turnBody_status env sim turn st).1, hst])
    refine ⟨?_, ihdb, ?_⟩
    · rw [ihs, (turnBody_store env sim turn st).2 (c turn) (hgen turn),
        List.range'_succ, List.map_cons]
      simp
    · rw [ihmem, (turnBody_status env sim turn st).2]

/-! ## C3: single-persona sessions -/

/-- The environment of the C3 counterexample: the lone persona exists and
is active, no external status writes, and the LLM call fails on every
turn. -/
def envC3cex : RunEnv :=
  { personaActive := fun _ => some true
    gen := fun _ => none
    ext := fun _ => none
    msgid := fun t => "m" ++ toString t
    msgTime := fun _ => 0 }

/-- A single-persona session with a configured max_turns of 7, fetched in
`running` state. -/
def simC3cex : SimulationModel :=
  { id := "s1", persona_ids := ["A"], max_turns := some 7,
    status := SimulationStatus.running, message_count := 0 }

/-- C3 counterexample: the claim says the first turn produces exactly 1
persona message "whether the generation succeeded or failed", but on the
concrete single-persona run whose generation fails, the session pauses
after the first turn having produced 0 messages. -/
theorem C3_counterexample :
    (run_simulation envC3cex simC3cex).db_status = SimulationStatus.paused
    ∧ ¬ ((run_simulation envC3cex simC3cex).store.length = 1) := by
  constructor
  · rfl
  · intro h
    rw [show (run_simulation envC3cex simC3cex).store.length = 0 from rfl] at h
    exact absurd h (by omega)

/-- C3 (amended): for every session with exactly one persona that is
present and active, when the task starts on a `running` session and no
external actor writes the status before the first turn, the loop takes
exactly one turn regardless of the configured max_turns and then sets the
durable (and in-memory) status to `paused`: on generation success exactly
one persona message is produced, on generation failure zero. -/
theorem C3_single_persona_one_turn (env : RunEnv) (sim : SimulationModel)
    (pid : String)
    (hp : sim.persona_ids = [pid])
    (hact : env.personaActive pid = some true)
    (hext : env.ext 0 = none)
    (hst : sim.status = SimulationStatus.running) :
    (run_simulation env sim).db_status = SimulationStatus.paused
    ∧ (run_simulation env sim).mem_status = SimulationStatus.paused
    ∧ (run_simulation env sim).store =
        (match env.gen 0 with
         | some c => [mkTurnMessage env sim 0 pid c]
         | none => [])
    ∧ (run_simulation env sim).store.length =
        (if (env.gen 0).isSome then 1 else 0) := by
  have hlen : sim.persona_ids.length = 1 := by rw [hp]; rfl
  have hsel : selectedPersona sim 0 = pid := by
    simp [selectedPersona, hp]
  obtain ⟨k, hk⟩ : ∃ k, actual_max_turns sim.max_turns sim.persona_ids.length
      = k + 1 :=
    ⟨actual_max_turns sim.max_turns sim.persona_ids.length - 1, by
      have := actual_max_turns_pos sim.max_turns sim.persona_ids.length
      omega⟩
  unfold run_simulation
  rw [hk, hlen]
  rw [show decide ((1 : Nat) = 1) = true from rfl]
  rw [runTurns_single_step env sim k 0 (initState sim)
    (by rw [hext]; simp [initState, hst])
    (by rw [hsel, hact]; simp)]
  rw [observeStatus_noext env 0 (initState sim) hext]
  rcases hg : env.gen 0 with _ | c <;>
    simp [turnBody, hg, finalizeRun, pauseState, initState, hsel]

/-- The environment of the C3 witness: generation succeeds. -/
def envC3wit : RunEnv :=
  { personaActive := fun _ => some true
    gen := fun _ => some "hello"
    ext := fun _ => none
    msgid := fun t => "m" ++ toString t
    msgTime := fun _ => 0 }

/-- C3 witness: a concrete single-persona session whose generation
succeeds pauses with exactly one message. -/
theorem C3_single_persona_witness :
    simC3cex.persona_ids = ["A"] ∧
    (run_simulation envC3wit simC3cex).db_status = SimulationStatus.paused ∧
    (run_simulation envC3wit simC3cex).store.length = 1 :=
  ⟨rfl,
   (C3_single_persona_one_turn envC3wit simC3cex "A" rfl rfl rfl rfl).1,
   by
    rw [(C3_single_persona_one_turn envC3wit simC3cex "A" rfl rfl rfl rfl).2.2.2]
    rfl⟩

/-! ## C4: default of 20 turns for multi-persona sessions -/

/-- Helper: the `finally` clause promotes a still-`running` in-memory status
to `completed` on both the model and the durable row. -/
theorem finalizeRun_running (st : RunState)
    (h : st.mem_status = SimulationStatus.running) :
    (finalizeRun st).db_status = SimulationStatus.completed
    ∧ (finalizeRun st).mem_status = SimulationStatus.completed := by
  unfold finalizeRun
  rw [if_pos h]
  exact ⟨rfl, rfl⟩

/-- C4: for every session with at least two personas and no configured
max_turns in the durable row, a run whose environment never writes the
status externally, finds every persona active, and succeeds on every
generation produces exactly 20 persona messages and then sets the durable
status to `completed`. -/
theorem C4_default_twenty_messages (env : RunEnv) (row : DBSimulation)
    (c : Nat → String)
    (hmax : row.max_turns = none)
    (hlen : 2 ≤ row.persona_ids.length)
    (hst : row.status = SimulationStatus.running)
    (hext : ∀ t, env.ext t = none)
    (hact : ∀ p ∈ row.persona_ids, env.personaActive p = some true)
    (hgen : ∀ t, env.gen t = some (c t)) :
    (run_simulation env (db_to_model row)).store.length = 20
    ∧ (run_simulation env (db_to_model row)).db_status =
        SimulationStatus.completed
    ∧ (run_simulation env (db_to_model row)).mem_status =
        SimulationStatus.completed := by
  have h1 : ¬ ((db_to_model row).persona_ids.length = 1) := by
    show ¬ (row.persona_ids.length = 1)
    omega
  have hmaxT : actual_max_turns (db_to_model row).max_turns
      (db_to_model row).persona_ids.length = 20 := by
    show actual_max_turns (some (pyOrNat row.max_turns 20)) _ = 20
    rw [hmax]
    rfl
  obtain ⟨hs, hdb, hmem⟩ := runTurns_all_success env (db_to_model row) c hext
    hact hgen (by show 0 < row.persona_ids.length; omega) 20 0
    (initState (db_to_model row))
    (by show (db_to_model row).status = SimulationStatus.running
        show row.status = SimulationStatus.running
        exact hst)
  unfold run_simulation
  rw [decide_eq_false h1, hmaxT]
  have hmemrun : (runTurns env (db_to_model row) false 20 0
      (initState (db_to_model row))).mem_status = SimulationStatus.running := by
    rw [hmem]
    show (db_to_model row).status = SimulationStatus.running
    show row.status = SimulationStatus.running
    exact hst
  refine ⟨?_, (finalizeRun_running _ hmemrun).1, (finalizeRun_running _ hmemrun).2⟩
  rw [(finalizeRun_fields _).2.1, hs]
  simp [initState]

/-- The happy-path environment: every persona active, every generation
succeeds, no external interference. -/
def envHappy : RunEnv :=
  { personaActive := fun _ => some true
    gen := fun _ => some "x"
    ext := fun _ => none
    msgid := fun t => "m" ++ toString t
    msgTime := fun t => t }

/-- A two-persona session row with no configured max_turns. -/
def rowC4 : DBSimulation :=
  { id := "s4", persona_ids := ["A", "B"], status := SimulationStatus.running,
    max_turns := none, message_count := 0, started_at := some 0,
    completed_at := none }

/-- C4 witness: the concrete two-persona session with no configured
max_turns runs 20 turns and completes. -/
theorem C4_default_twenty_witness :
    rowC4.max_turns = none ∧ 2 ≤ rowC4.persona_ids.length ∧
    (run_simulation envHappy (db_to_model rowC4)).store.length = 20 ∧
    (run_simulation envHappy (db_to_model rowC4)).db_status =
      SimulationStatus.completed :=
  ⟨rfl, by decide,
   (C4_default_twenty_messages envHappy rowC4 (fun _ => "x") rfl (by decide)
     rfl (fun _ => rfl) (fun _ _ => rfl) (fun _ => rfl)).1,
   (C4_default_twenty_messages envHappy rowC4 (fun _ => "x") rfl (by decide)
     rfl (fun _ => rfl) (fun _ _ => rfl) (fun _ => rfl)).2.1⟩

/-! ## C8: round-robin selection, skipping, and the [A, B] scenario -/

/-- C8: the loop selects the persona `turn_index mod number_of_personas`;
a turn that observes `running` but finds the selected persona missing or
inactive recurses with `turn + 1` and an otherwise unchanged state (no
message generated); and in the concrete scenario — two active personas
`[pa, pb]`, configured max_turns 4, all generations succeeding, no
external interference — the run produces exactly four messages authored
`pa, pb, pa, pb` and then completes. -/
theorem C8_round_robin_selection :
    (∀ (env : RunEnv) (sim : SimulationModel) (single : Bool)
       (rem turn : Nat) (st : RunState),
       (env.ext turn).getD st.db_status = SimulationStatus.running →
       (env.personaActive (selectedPersona sim turn)).getD false = false →
       runTurns env sim single (rem+1) turn st
         = runTurns env sim single rem (turn+1) (observeStatus env turn st))
    ∧ (∀ (env : RunEnv) (row : DBSimulation) (pa pb : String) (c : Nat → String),
        row.persona_ids = [pa, pb] →
        row.max_turns = some 4 →
        row.status = SimulationStatus.running →
        (∀ t, env.ext t = none) →
        env.personaActive pa = some true →
        env.personaActive pb = some true →
        (∀ t, env.gen t = some (c t)) →
        (run_simulation env (db_to_model row)).store.map (fun m => m.persona_id)
            = [some pa, some pb, some pa, some pb]
          ∧ (run_simulation env (db_to_model row)).db_status =
              SimulationStatus.completed) := by
  constructor
  · intro env sim single rem turn st h1 h2
    rw [runTurns]
    rw [if_neg (by simp [observeStatus, h1]), if_pos h2]
  · intro env row pa pb c hp hm hrs hext hacta hactb hgen
    have hpids : (db_to_model row).persona_ids = [pa, pb] := hp
    have h1 : ¬ ((db_to_model row).persona_ids.length = 1) := by
      rw [hpids]
      simp
    have hmaxT : actual_max_turns (db_to_model row).max_turns
        (db_to_model row).persona_ids.length = 4 := by
      show actual_max_turns (some (pyOrNat row.max_turns 20)) _ = 4
      rw [hm]
      rfl
    have hact : ∀ p ∈ (db_to_model row).persona_ids,
        env.personaActive p = some true := by
      intro p hmem
      rw [hpids] at hmem
      rcases List.mem_pair.mp hmem with rfl | rfl
      · exact hacta
      · exact hactb
    obtain ⟨hs, hdb, hmem⟩ := runTurns_all_success env (db_to_model row) c hext
      hact hgen (by rw [hpids]; simp) 4 0 (initState (db_to_model row))
      (by show (db_to_model row).status = SimulationStatus.running
          exact hrs)
    have hmemrun : (runTurns env (db_to_model row) false 4 0
        (initState (db_to_model row))).mem_status =
          SimulationStatus.running := by
      rw [hmem]
      show (db_to_model row).status = SimulationStatus.running
      exact hrs
    unfold run_simulation
    rw [decide_eq_false h1, hmaxT]
    refine ⟨?_, (finalizeRun_running _ hmemrun).1⟩
    rw [(finalizeRun_fields _).2.1, hs]
    rw [show List.range' 0 4 = [0, 1, 2, 3] from by decide]
    simp [initState, mkTurnMessage, selectedPersona, hpids]

/-- A two-persona session row with a configured max_turns of 4. -/
def rowC8 : DBSimulation :=
  { id := "s8", persona_ids := ["A", "B"], status := SimulationStatus.running,
    max_turns := some 4, message_count := 0, started_at := some 0,
    completed_at := none }

/-- C8 witness: the concrete `[A, B]` scenario alternates authors
A, B, A, B and completes. -/
theorem C8_round_robin_witness :
    rowC8.persona_ids = ["A", "B"] ∧
    (run_simulation envHappy (db_to_model rowC8)).store.map
        (fun m => m.persona_id)
      = [some "A", some "B", some "A", some "B"] ∧
    (run_simulation envHappy (db_to_model rowC8)).db_status =
      SimulationStatus.completed :=
  ⟨rfl,
   (C8_round_robin_selection.2 envHappy rowC8 "A" "B" (fun _ => "x") rfl rfl
     rfl (fun _ => rfl) rfl rfl (fun _ => rfl)).1,
   (C8_round_robin_selection.2 envHappy rowC8 "A" "B" (fun _ => "x") rfl rfl
     rfl (fun _ => rfl) rfl rfl (fun _ => rfl)).2⟩

end MindNest
